import Mathlib

/-!
Verification development for the `ollama_monitor` repository
(`ollama_monitor.py`), a Flask/SQLite monitoring service for an Ollama
inference server.

The single source file is shallow-embedded as follows:

* The three SQLite tables (`system_metrics`, `request_logs`, `models`) are
  modelled as Lean lists of row structures, ignoring the `id` autoincrement
  column.  `INSERT` appends to the list; `SELECT ... WHERE / ORDER BY` is
  filtering followed by sorting.
* Timestamps are modelled as integers under the chronological order, measured
  in hours so that the SQL cutoff `datetime('now', '-h hours')` becomes
  `now - h`.  The SQL comparison `timestamp > cutoff` is the strict `<` on
  the model side, exactly as in the source.
* SQL `REAL` columns and Python floats are modelled as `ℚ`; integer columns
  as `Int`.
* Network effects (the `requests` library) are modelled by an explicit
  upstream oracle: each operation first constructs an `UpstreamCall`
  descriptor recording method, URL, headers, query parameters, body and the
  (optional) timeout argument exactly as the source passes them, and the
  oracle maps that descriptor to an outcome (response / transport error).
* Flask request/response objects are modelled by `InRequest` /
  `ProxyResponse` records carrying the fields the source actually reads or
  writes.
-/

namespace OllamaMonitor

/-- ASCII lower-casing of one character; models Python `str.lower()` on the
process names the monitor inspects. -/
def asciiLowerChar (c : Char) : Char :=
  if 'A' ≤ c ∧ c ≤ 'Z' then Char.ofNat (c.toNat + 32) else c

/-- Does `needle` occur at the head of `hay`?  Helper for the Python
`in` substring test. -/
def matchHere : List Char → List Char → Bool
  | [], _ => true
  | _ :: _, [] => false
  | a :: as, b :: bs => a == b && matchHere as bs

/-- Does `needle` occur anywhere inside `hay`?  Models Python
`needle in hay` on strings. -/
def containsSeq (needle : List Char) : List Char → Bool
  | [] => needle.isEmpty
  | b :: bs => matchHere needle (b :: bs) || containsSeq needle bs

/-- A row of the `system_metrics` table (without the autoincrement `id`).
Field names follow the SQL schema in `_create_tables`. -/
structure SysRow where
  timestamp : Int
  server_status : Int
  cpu_percent : ℚ
  memory_percent : ℚ
  disk_percent : ℚ
  network_bytes_sent : Int
  network_bytes_recv : Int
  ollama_cpu_percent : ℚ
  ollama_memory_percent : ℚ
  ollama_connections : Int
  deriving DecidableEq

/-- A row of the `request_logs` table (without the autoincrement `id`).
`response_time` is a nullable `REAL` column, hence `Option ℚ`. -/
structure ReqRow where
  timestamp : Int
  client_ip : String
  model_name : String
  input_tokens : Int
  output_tokens : Int
  response_time : Option ℚ
  status_code : Nat
  endpoint : String
  deriving DecidableEq

/-- A row of the `models` table (without the autoincrement `id`). -/
structure ModelRow where
  timestamp : Int
  model_name : String
  model_size : String
  parameter_size : String
  modified_at : String
  model_family : String
  deriving DecidableEq

/-- The `metrics['system']` dictionary produced by `get_system_metrics`. -/
structure SystemInfo where
  cpu_percent : ℚ
  memory_percent : ℚ
  disk_percent : ℚ
  network_bytes_sent : Int
  network_bytes_recv : Int
  deriving DecidableEq

/-- The dictionary returned by `get_ollama_process_info` (when a matching
process is found). -/
structure ProcInfo where
  pid : Int
  cpu_percent : ℚ
  memory_percent : ℚ
  connections : Int
  deriving DecidableEq

/-- The `metrics` dictionary composed by `OllamaMonitor.run` for one tick:
`ollama_process` is `none` when `get_ollama_process_info` returned `None`
(the source then passes `{}` into `save_system_metrics`). -/
structure Metrics where
  timestamp : Int
  server_status : Bool
  system : SystemInfo
  ollama_process : Option ProcInfo
  deriving DecidableEq

/-- The row that `OllamaMetricsDB.save_system_metrics` inserts for a given
`metrics` dictionary: booleans become `1`/`0`, and the process fields use
the `.get(key, 0)` defaults when `ollama_process` is the empty dict. -/
def sysRowOfMetrics (m : Metrics) : SysRow :=
  { timestamp := m.timestamp
    server_status := if m.server_status then 1 else 0
    cpu_percent := m.system.cpu_percent
    memory_percent := m.system.memory_percent
    disk_percent := m.system.disk_percent
    network_bytes_sent := m.system.network_bytes_sent
    network_bytes_recv := m.system.network_bytes_recv
    ollama_cpu_percent := (m.ollama_process.map ProcInfo.cpu_percent).getD 0
    ollama_memory_percent := (m.ollama_process.map ProcInfo.memory_percent).getD 0
    ollama_connections := (m.ollama_process.map ProcInfo.connections).getD 0 }

/-- `OllamaMetricsDB.save_system_metrics`: one `INSERT` appending one row. -/
def save_system_metrics (db : List SysRow) (m : Metrics) : List SysRow :=
  db ++ [sysRowOfMetrics m]

/-- One entry of the `models` list received from the upstream `/api/tags`
response, with the fields `save_models` reads. -/
structure ModelInfo where
  name : String
  size : Int
  parameter_size : String
  modified_at : String
  family : String
  deriving DecidableEq

/-- The row `OllamaMetricsDB.save_models` inserts for one model of a batch:
all rows of the batch share the caller-supplied `timestamp`, and the size is
serialized with `str(...)`. -/
def modelRowOf (ts : Int) (m : ModelInfo) : ModelRow :=
  { timestamp := ts
    model_name := m.name
    model_size := toString m.size
    parameter_size := m.parameter_size
    modified_at := m.modified_at
    model_family := m.family }

/-- `OllamaMetricsDB.save_models`: inserts one row per model, all with the
same timestamp. -/
def save_models (db : List ModelRow) (ts : Int) (models : List ModelInfo) :
    List ModelRow :=
  db ++ models.map (modelRowOf ts)

/-- `OllamaMetricsDB.save_request_log`: one `INSERT` appending one row. -/
def save_request_log (db : List ReqRow) (e : ReqRow) : List ReqRow :=
  db ++ [e]

/-- Ordering used by `ORDER BY timestamp` (ascending). -/
def sysRowLe (a b : SysRow) : Prop := a.timestamp ≤ b.timestamp

instance : DecidableRel sysRowLe := fun a b => Int.decLe a.timestamp b.timestamp

instance : IsTotal SysRow sysRowLe := ⟨fun a b => Int.le_total a.timestamp b.timestamp⟩

instance : IsTrans SysRow sysRowLe := ⟨fun _ _ _ hab hbc => le_trans hab hbc⟩

/-- Ordering used by `ORDER BY timestamp DESC` (descending). -/
def reqRowGe (a b : ReqRow) : Prop := b.timestamp ≤ a.timestamp

instance : DecidableRel reqRowGe := fun a b => Int.decLe b.timestamp a.timestamp

instance : IsTotal ReqRow reqRowGe := ⟨fun a b => Int.le_total b.timestamp a.timestamp⟩

instance : IsTrans ReqRow reqRowGe := ⟨fun _ _ _ hab hbc => le_trans hbc hab⟩

/-- `OllamaMetricsDB.get_recent_system_metrics`:
`SELECT * FROM system_metrics WHERE timestamp > datetime('now','-N hours')
ORDER BY timestamp`.  The cutoff `datetime('now','-hours hours')` is
`now - hours`; note the comparison in the source is strict. -/
def get_recent_system_metrics (now hours : Int) (db : List SysRow) : List SysRow :=
  List.insertionSort sysRowLe (db.filter (fun r => decide (now - hours < r.timestamp)))

/-- `OllamaMetricsDB.get_recent_requests`: same window, but
`ORDER BY timestamp DESC`. -/
def get_recent_requests (now hours : Int) (db : List ReqRow) : List ReqRow :=
  List.insertionSort reqRowGe (db.filter (fun r => decide (now - hours < r.timestamp)))

/-- `SELECT MAX(timestamp) FROM models`: `none` on an empty table. -/
def maxTimestamp : List ModelRow → Option Int
  | [] => none
  | r :: rs =>
    match maxTimestamp rs with
    | none => some r.timestamp
    | some m => some (max r.timestamp m)

/-- `OllamaMetricsDB.get_latest_models`:
`SELECT * FROM models WHERE timestamp = (SELECT MAX(timestamp) FROM models)`.
On an empty table the subquery is `NULL` and the comparison matches no row. -/
def get_latest_models (db : List ModelRow) : List ModelRow :=
  match maxTimestamp db with
  | none => []
  | some mx => db.filter (fun r => decide (r.timestamp = mx))

/-- One step of building Python's `endpoint_counts` dict: increment the
count of `e`, inserting it at the end on first sight (dict insertion
order). -/
def bumpEndpoint (counts : List (String × Nat)) (e : String) : List (String × Nat) :=
  match counts with
  | [] => [(e, 1)]
  | (k, c) :: rest => if k = e then (k, c + 1) :: rest else (k, c) :: bumpEndpoint rest e

/-- The `endpoint_counts` dict of `api_request_stats`, as an association
list in key-insertion order. -/
def endpointCounts (logs : List ReqRow) : List (String × Nat) :=
  logs.foldl (fun acc log => bumpEndpoint acc log.endpoint) []

/-- Tail of Python `max(..., key=...)`: keep the current best, replace only
on a strictly greater key. -/
def pyMaxKeyAux (k : String) (c : Nat) : List (String × Nat) → String
  | [] => k
  | (k2, c2) :: rest => if c < c2 then pyMaxKeyAux k2 c2 rest else pyMaxKeyAux k c rest

/-- Python `max(counts, key=counts.get, default=None)` over the
association-list dict: `none` on the empty dict, otherwise the first key of
maximal count in insertion order. -/
def pyMaxKey : List (String × Nat) → Option String
  | [] => none
  | (k, c) :: rest => some (pyMaxKeyAux k c rest)

/-- The JSON object returned by the `/api/stats/requests` route. -/
structure RequestStats where
  total_requests : Nat
  total_input_tokens : Int
  total_output_tokens : Int
  avg_response_time : ℚ
  most_active_endpoint : Option String
  deriving DecidableEq

/-- The `api_request_stats` route body: aggregates over the windowed
request-log result. -/
def api_request_stats (now hours : Int) (db : List ReqRow) : RequestStats :=
  let logs := get_recent_requests now hours db
  let response_times := logs.filterMap ReqRow.response_time
  { total_requests := logs.length
    total_input_tokens := (logs.map ReqRow.input_tokens).sum
    total_output_tokens := (logs.map ReqRow.output_tokens).sum
    avg_response_time :=
      if response_times.isEmpty then 0
      else response_times.sum / (response_times.length : ℚ)
    most_active_endpoint := pyMaxKey (endpointCounts logs) }

/-- HTTP method of an inbound request; `other` covers anything outside the
four branches of `proxy_ollama`. -/
inductive Method
  | get
  | post
  | put
  | delete
  | other (verb : String)
  deriving DecidableEq

/-- The pieces of the Flask `request` object that `proxy_ollama` reads:
method, query string `args`, `headers`, `get_json(silent=True)` (a parsed
JSON document, abstracted to a string payload; `none` when the body is not
JSON), `get_data()` raw bytes, and `remote_addr`. -/
structure InRequest where
  method : Method
  args : List (String × String)
  headers : List (String × String)
  jsonBody : Option String
  rawData : String
  remote_addr : String
  deriving DecidableEq

/-- One outgoing `requests.<method>(...)` call as the source constructs it:
the keyword arguments that are actually passed, including whether a
`timeout=` argument is present. -/
structure UpstreamCall where
  method : Method
  url : String
  headers : List (String × String)
  params : List (String × String)
  jsonBody : Option String
  dataBody : Option String
  timeoutSeconds : Option Nat
  deriving DecidableEq

/-- Configuration constant `OLLAMA_HOST`. -/
def OLLAMA_HOST : String := "http://localhost:11434"

/-- `OllamaMonitor.api_endpoint` for the default host. -/
def api_endpoint : String := OLLAMA_HOST ++ "/api"

/-- The header dict rebuilt by `proxy_ollama`:
`{key: value for (key, value) in request.headers if key != 'Host'}`. -/
def dropHostHeader (hs : List (String × String)) : List (String × String) :=
  hs.filter (fun kv => decide (kv.1 ≠ "Host"))

/-- The upstream call issued by `proxy_ollama` for an inbound request, or
`none` for the `else` branch (unsupported method).  Note from the source:
only the GET branch passes `params=request.args`; POST passes the parsed
JSON body, PUT the raw data, DELETE neither; all four pass `timeout=10`. -/
def buildUpstreamCall (req : InRequest) (path : String) : Option UpstreamCall :=
  match req.method with
  | .get => some
      { method := .get
        url := OLLAMA_HOST ++ "/" ++ path
        headers := dropHostHeader req.headers
        params := req.args
        jsonBody := none
        dataBody := none
        timeoutSeconds := some 10 }
  | .post => some
      { method := .post
        url := OLLAMA_HOST ++ "/" ++ path
        headers := dropHostHeader req.headers
        params := []
        jsonBody := req.jsonBody
        dataBody := none
        timeoutSeconds := some 10 }
  | .put => some
      { method := .put
        url := OLLAMA_HOST ++ "/" ++ path
        headers := dropHostHeader req.headers
        params := []
        jsonBody := none
        dataBody := some req.rawData
        timeoutSeconds := some 10 }
  | .delete => some
      { method := .delete
        url := OLLAMA_HOST ++ "/" ++ path
        headers := dropHostHeader req.headers
        params := []
        jsonBody := none
        dataBody := none
        timeoutSeconds := some 10 }
  | .other _ => none

/-- Outcome of one upstream call: a response (status, content, raw headers),
a `requests.exceptions.RequestException` (transport failure), or any other
unexpected exception. -/
inductive UpstreamResult
  | ok (status : Nat) (content : String) (rawHeaders : List (String × String))
  | transportFailure (details : String)
  | unexpectedFailure (details : String)
  deriving DecidableEq

/-- Body of a response returned by `proxy_ollama`: forwarded upstream
content, a two-field `jsonify` error object, or a one-field one. -/
inductive RespBody
  | content (body : String)
  | errorJson (error : String) (details : String)
  | errorOnly (error : String)
  deriving DecidableEq

/-- A Flask response triple `(body, status, headers)` as returned by
`proxy_ollama`. -/
structure ProxyResponse where
  status : Nat
  body : RespBody
  headers : List (String × String)
  deriving DecidableEq

/-- The `proxy_ollama` route handler.  `upstream` is the oracle for the
`requests` library; the handler returns its response together with the
`request_logs` table, which it never writes. -/
def proxy_ollama (upstream : UpstreamCall → UpstreamResult) (req : InRequest)
    (path : String) (db : List ReqRow) : ProxyResponse × List ReqRow :=
  match buildUpstreamCall req path with
  | none => ({ status := 405, body := .errorOnly "Method not allowed", headers := [] }, db)
  | some call =>
    match upstream call with
    | .ok s c hs => ({ status := s, body := .content c, headers := hs }, db)
    | .transportFailure d =>
        ({ status := 502, body := .errorJson "Upstream API request failed" d, headers := [] }, db)
    | .unexpectedFailure d =>
        ({ status := 500, body := .errorJson "Unexpected error occurred" d, headers := [] }, db)

/-- The call issued by `OllamaMonitor.get_server_status`:
`requests.get(f"(api_endpoint)/tags")` — no `timeout=` argument in the
source. -/
def serverStatusCall : UpstreamCall :=
  { method := .get
    url := api_endpoint ++ "/tags"
    headers := []
    params := []
    jsonBody := none
    dataBody := none
    timeoutSeconds := none }

/-- The JSON payload of the generation test,
`dict(model=model_name, prompt="Hello, world!", stream=False)`, abstracted
to a canonical string serialization. -/
def generatePayload (modelName : String) : String :=
  "model=" ++ modelName ++ "; prompt=Hello, world!; stream=False"

/-- The call issued by `OllamaMonitor.test_model_generation`:
`requests.post(f"(api_endpoint)/generate", json=data)` — no `timeout=`
argument in the source. -/
def generateCall (modelName : String) : UpstreamCall :=
  { method := .post
    url := api_endpoint ++ "/generate"
    headers := []
    params := []
    jsonBody := some (generatePayload modelName)
    dataBody := none
    timeoutSeconds := none }

/-- Python truthiness of an optional string: `None` and `""` are falsy. -/
def pyFalsy (s : Option String) : Bool := (s.getD "") == ""

/-- Outcome of the generation-test upstream call: an HTTP response with the
token counts the body may report, or a transport error (any exception in
the `try` block). -/
inductive GenOutcome
  | response (status : Nat) (promptEvalCount : Option Int) (evalCount : Option Int)
  | transportFailure (details : String)
  deriving DecidableEq

/-- The model-name defaulting at the top of `test_model_generation`:
`if not model_name and self.default_model: model_name = self.default_model`. -/
def resolveModelName (defaultModel modelName : Option String) : Option String :=
  if pyFalsy modelName && !(pyFalsy defaultModel) then defaultModel else modelName

/-- `OllamaMonitor.test_model_generation`.  `now` is the wall clock at
logging time and `elapsed` the measured `time.time() - start_time`.
Returns the updated `request_logs` table and the Python return value
(`response_time` on success, `None` otherwise). -/
def test_model_generation (defaultModel modelName : Option String)
    (outcome : GenOutcome) (now : Int) (elapsed : ℚ) (db : List ReqRow) :
    List ReqRow × Option ℚ :=
  let name := resolveModelName defaultModel modelName
  if pyFalsy name then (db, none)
  else
    match outcome with
    | .response s pec ec =>
      if s = 200 then
        (save_request_log db
          { timestamp := now
            client_ip := "127.0.0.1"
            model_name := name.getD ""
            input_tokens := pec.getD 0
            output_tokens := ec.getD 0
            response_time := some elapsed
            status_code := s
            endpoint := "/api/generate" }, some elapsed)
      else (db, none)
    | .transportFailure _ => (db, none)

/-- One entry of `psutil.process_iter(...)` as `get_ollama_process_info`
reads it: the `info` fields plus whether `net_connections` raises
`AccessDenied`, and the connection count when it does not. -/
structure ProcEntry where
  pid : Int
  name : String
  cpu_percent : ℚ
  memory_percent : ℚ
  accDenied : Bool
  inetConnCount : Nat
  deriving DecidableEq

/-- The match test of the process scan: `'ollama' in proc.info['name'].lower()`. -/
def nameMatches (procName : String) : Bool :=
  containsSeq "ollama".toList (procName.toList.map asciiLowerChar)

/-- `OllamaMonitor.get_ollama_process_info`: first process whose lowercased
name contains `"ollama"`; `connections` is the inet-socket count, or `-1`
when `AccessDenied` is raised; `None` when no process matches. -/
def get_ollama_process_info (procs : List ProcEntry) : Option ProcInfo :=
  match procs.find? (fun p => nameMatches p.name) with
  | none => none
  | some p =>
    if p.accDenied then
      some { pid := p.pid, cpu_percent := p.cpu_percent,
             memory_percent := p.memory_percent, connections := -1 }
    else
      some { pid := p.pid, cpu_percent := p.cpu_percent,
             memory_percent := p.memory_percent, connections := (p.inetConnCount : Int) }

/-- The environment one iteration of `OllamaMonitor.run` observes: the
clock, the liveness-probe result, the host metrics, and the process
table. -/
structure TickEnv where
  timestamp : Int
  serverUp : Bool
  system : SystemInfo
  procs : List ProcEntry
  deriving DecidableEq

/-- The `metrics` dictionary composed by one tick of `OllamaMonitor.run`. -/
def composeTickMetrics (env : TickEnv) : Metrics :=
  { timestamp := env.timestamp
    server_status := env.serverUp
    system := env.system
    ollama_process := get_ollama_process_info env.procs }

/-- One tick of `OllamaMonitor.run`: compose the sample, persist it via
`save_system_metrics`, and emit it on the `update_metrics` channel.  The
second component is the list of published payloads. -/
def runTick (env : TickEnv) (db : List SysRow) : List SysRow × List Metrics :=
  (save_system_metrics db (composeTickMetrics env), [composeTickMetrics env])

/-! ### Concrete fixtures used by counterexamples and witnesses -/

/-- A system-metrics row whose timestamp sits exactly on the window
boundary `now - hours` for `now = 0`, `hours = 24`. -/
def boundaryRow : SysRow :=
  { timestamp := -24, server_status := 1, cpu_percent := 0, memory_percent := 0,
    disk_percent := 0, network_bytes_sent := 0, network_bytes_recv := 0,
    ollama_cpu_percent := 0, ollama_memory_percent := 0, ollama_connections := 0 }

/-- A GET request on the proxy route (carries query parameters and a `Host`
header). -/
def getReq : InRequest :=
  { method := .get, args := [("verbose", "1")],
    headers := [("Host", "monitor.local"), ("Accept", "application/json")],
    jsonBody := none, rawData := "", remote_addr := "10.0.0.5" }

/-- A POST request on the proxy route carrying a query parameter. -/
def postReq : InRequest :=
  { method := .post, args := [("a", "1")], headers := [],
    jsonBody := some "PAYLOAD", rawData := "PAYLOAD", remote_addr := "10.0.0.5" }

/-- A request with a method outside the four supported branches. -/
def patchReq : InRequest :=
  { method := .other "PATCH", args := [], headers := [],
    jsonBody := none, rawData := "", remote_addr := "10.0.0.5" }

/-- Upstream oracle answering 200 with a fixed body. -/
def okUpstream : UpstreamCall → UpstreamResult :=
  fun _ => .ok 200 "TAGSBODY" [("Content-Type", "application/json")]

/-- Upstream oracle raising a transport failure on every call. -/
def failingUpstream : UpstreamCall → UpstreamResult :=
  fun _ => .transportFailure "connection refused"

/-- The call `proxy_ollama` builds for `getReq` on path `api/tags`. -/
def tagsCall : UpstreamCall :=
  { method := .get, url := "http://localhost:11434/api/tags",
    headers := [("Accept", "application/json")], params := [("verbose", "1")],
    jsonBody := none, dataBody := none, timeoutSeconds := some 10 }

/-- A sample within every reasonable window (timestamp one hour ago). -/
def sampleMetrics : Metrics :=
  { timestamp := -1, server_status := true,
    system := { cpu_percent := 12, memory_percent := 34, disk_percent := 56,
                network_bytes_sent := 100, network_bytes_recv := 200 },
    ollama_process := none }

/-- A model batch entry. -/
def modelA : ModelInfo :=
  { name := "llama3", size := 42, parameter_size := "8B",
    modified_at := "2024-01-01", family := "llama" }

/-- Another model batch entry. -/
def modelB : ModelInfo :=
  { name := "mistral", size := 7, parameter_size := "7B",
    modified_at := "2024-02-01", family := "mistral" }

/-- A process entry matching the watched name whose connection
introspection is denied. -/
def deniedProc : ProcEntry :=
  { pid := 7, name := "Ollama Serve", cpu_percent := 2, memory_percent := 3,
    accDenied := true, inetConnCount := 4 }

/-- A tick environment whose process table contains only `deniedProc`. -/
def deniedEnv : TickEnv :=
  { timestamp := 5, serverUp := true,
    system := { cpu_percent := 10, memory_percent := 20, disk_percent := 30,
                network_bytes_sent := 1, network_bytes_recv := 2 },
    procs := [deniedProc] }

/-! ### Helper lemmas -/

theorem foldl_save_system_metrics (ms : List Metrics) (acc : List SysRow) :
    ms.foldl save_system_metrics acc = acc ++ ms.map sysRowOfMetrics := by
  induction ms generalizing acc with
  | nil => simp
  | cons m ms ih => simp [save_system_metrics, ih]

theorem maxTimestamp_ne_none (r : ModelRow) (rs : List ModelRow) :
    maxTimestamp (r :: rs) ≠ none := by
  cases hrs : maxTimestamp rs <;> simp [maxTimestamp, hrs]

theorem maxTimestamp_spec :
    ∀ (db : List ModelRow) (m : Int), maxTimestamp db = some m →
      (∃ r ∈ db, r.timestamp = m) ∧ (∀ r ∈ db, r.timestamp ≤ m) := by
  intro db
  induction db with
  | nil => intro m h; simp [maxTimestamp] at h
  | cons r rs ih =>
    intro m h
    cases hrs : maxTimestamp rs with
    | none =>
      cases rs with
      | nil =>
        simp [maxTimestamp] at h
        subst h
        exact ⟨⟨r, by simp, rfl⟩, by simp⟩
      | cons s ss => exact absurd hrs (maxTimestamp_ne_none s ss)
    | some m2 =>
      simp [maxTimestamp, hrs] at h
      rcases ih m2 hrs with ⟨⟨s, hs, hts⟩, hub⟩
      constructor
      · rcases max_choice r.timestamp m2 with hc | hc
        · exact ⟨r, by simp, by rw [← h, hc]⟩
        · exact ⟨s, by simp [hs], by rw [hts, ← h, hc]⟩
      · intro x hx
        rcases List.mem_cons.mp hx with rfl | hx2
        · rw [← h]; exact le_max_left _ _
        · exact le_trans (hub x hx2) (by rw [← h]; exact le_max_right _ _)

theorem maxTimestamp_eq_of_bound (db : List ModelRow) (T : Int)
    (hmem : ∃ r ∈ db, r.timestamp = T) (hub : ∀ r ∈ db, r.timestamp ≤ T) :
    maxTimestamp db = some T := by
  cases hdb : maxTimestamp db with
  | none =>
    cases db with
    | nil => rcases hmem with ⟨r, hr, _⟩; simp at hr
    | cons r rs => exact absurd hdb (maxTimestamp_ne_none r rs)
  | some m =>
    rcases maxTimestamp_spec db m hdb with ⟨⟨s, hs, hts⟩, hub2⟩
    rcases hmem with ⟨t, ht, htt⟩
    have h1 : m ≤ T := by rw [← hts]; exact hub s hs
    have h2 : T ≤ m := by rw [← htt]; exact hub2 t ht
    exact congrArg some (le_antisymm h1 h2)

theorem buildUpstreamCall_timeout (req : InRequest) (path : String) :
    ∀ c, buildUpstreamCall req path = some c → c.timeoutSeconds = some 10 := by
  intro c hc
  cases hm : req.method <;> simp [buildUpstreamCall, hm] at hc <;> subst hc <;> rfl

/-! ### Claim theorems -/

/-- Claim C1, counterexample: a row whose timestamp is exactly `now - hours`
satisfies the claim's "at least `now - h`" bound, yet
`get_recent_system_metrics` excludes it — the source filter is the strict
`timestamp > datetime('now', '-hours hours')`. -/
theorem recent_query_boundary_row_excluded :
    boundaryRow.timestamp ≥ 0 - 24 ∧
    get_recent_system_metrics 0 24 [boundaryRow] = [] := by
  exact ⟨by decide, rfl⟩

/-- Claim C1 (amended): for every window, `get_recent_system_metrics`
returns exactly (as a multiset) the rows whose timestamp is strictly
greater than `now - hours`, sorted ascending by timestamp, and
`get_recent_requests` applies the same strict bound with the rows sorted
descending by timestamp. -/
theorem recent_queries_strict_window_sorted (now hours : Int)
    (sdb : List SysRow) (rdb : List ReqRow) :
    (get_recent_system_metrics now hours sdb).Perm
      (sdb.filter (fun r => decide (now - hours < r.timestamp))) ∧
    List.Sorted sysRowLe (get_recent_system_metrics now hours sdb) ∧
    (get_recent_requests now hours rdb).Perm
      (rdb.filter (fun r => decide (now - hours < r.timestamp))) ∧
    List.Sorted reqRowGe (get_recent_requests now hours rdb) :=
  ⟨List.perm_insertionSort _ _, List.sorted_insertionSort _ _,
   List.perm_insertionSort _ _, List.sorted_insertionSort _ _⟩

/-- Claim C3: writing N system-metric samples and querying with a window
containing all of them returns exactly N rows, equal (as a multiset) to the
rows that were written. -/
theorem system_metrics_roundtrip (now hours : Int) (ms : List Metrics)
    (hwin : ∀ m ∈ ms, now - hours < m.timestamp) :
    (get_recent_system_metrics now hours (ms.foldl save_system_metrics [])).Perm
      (ms.map sysRowOfMetrics) ∧
    (get_recent_system_metrics now hours (ms.foldl save_system_metrics [])).length
      = ms.length := by
  have hdb : ms.foldl save_system_metrics [] = ms.map sysRowOfMetrics :=
    foldl_save_system_metrics ms []
  have hfil : (ms.map sysRowOfMetrics).filter
      (fun r => decide (now - hours < r.timestamp)) = ms.map sysRowOfMetrics := by
    rw [List.filter_eq_self]
    intro r hr
    rcases List.mem_map.mp hr with ⟨m, hm, rfl⟩
    simpa [sysRowOfMetrics] using hwin m hm
  have hperm : (get_recent_system_metrics now hours
      (ms.foldl save_system_metrics [])).Perm (ms.map sysRowOfMetrics) := by
    unfold get_recent_system_metrics
    rw [hdb, hfil]
    exact List.perm_insertionSort _ _
  refine ⟨hperm, ?_⟩
  rw [hperm.length_eq]
  simp

/-- Claim C3 witness: one concrete sample one hour old round-trips through
a 24-hour window. -/
theorem system_metrics_roundtrip_witness :
    (∀ m ∈ [sampleMetrics], (0 : Int) - 24 < m.timestamp) ∧
    (get_recent_system_metrics 0 24
      ([sampleMetrics].foldl save_system_metrics [])).length = 1 :=
  ⟨by decide, (system_metrics_roundtrip 0 24 [sampleMetrics] (by decide)).2⟩

/-- Claim C8: `get_latest_models` returns exactly the rows sharing the
maximum timestamp present in the `models` relation, and after writing two
batches at times `T1 < T2` (the second nonempty) it returns exactly the
rows of the `T2` batch. -/
theorem latest_models_newest_batch (T1 T2 : Int) (b1 b2 : List ModelInfo)
    (hlt : T1 < T2) (hne : b2 ≠ []) :
    (∀ (db : List ModelRow) (r : ModelRow),
        r ∈ get_latest_models db ↔ r ∈ db ∧ ∀ s ∈ db, s.timestamp ≤ r.timestamp) ∧
    get_latest_models (save_models (save_models [] T1 b1) T2 b2)
      = b2.map (modelRowOf T2) := by
  constructor
  · intro db r
    constructor
    · intro hr
      cases hdb : maxTimestamp db with
      | none => rw [get_latest_models, hdb] at hr; simp at hr
      | some mx =>
        rw [get_latest_models, hdb] at hr
        rcases List.mem_filter.mp hr with ⟨hrdb, hts⟩
        have hts2 : r.timestamp = mx := of_decide_eq_true hts
        refine ⟨hrdb, fun s hs => ?_⟩
        rw [hts2]
        exact (maxTimestamp_spec db mx hdb).2 s hs
    · rintro ⟨hrdb, hub⟩
      have hdb : maxTimestamp db = some r.timestamp :=
        maxTimestamp_eq_of_bound db r.timestamp ⟨r, hrdb, rfl⟩ hub
      rw [get_latest_models, hdb]
      exact List.mem_filter.mpr ⟨hrdb, by simp⟩
  · have hdb : save_models (save_models [] T1 b1) T2 b2
        = b1.map (modelRowOf T1) ++ b2.map (modelRowOf T2) := by
      simp [save_models]
    have hmem : ∃ r ∈ b1.map (modelRowOf T1) ++ b2.map (modelRowOf T2),
        r.timestamp = T2 := by
      cases b2 with
      | nil => exact absurd rfl hne
      | cons m ms =>
        exact ⟨modelRowOf T2 m, List.mem_append.mpr (Or.inr (by simp)), rfl⟩
    have hub : ∀ r ∈ b1.map (modelRowOf T1) ++ b2.map (modelRowOf T2),
        r.timestamp ≤ T2 := by
      intro r hr
      rcases List.mem_append.mp hr with h1 | h2
      · rcases List.mem_map.mp h1 with ⟨m, _, rfl⟩
        exact le_of_lt hlt
      · rcases List.mem_map.mp h2 with ⟨m, _, rfl⟩
        exact le_refl T2
    have hmax : maxTimestamp (b1.map (modelRowOf T1) ++ b2.map (modelRowOf T2))
        = some T2 := maxTimestamp_eq_of_bound _ T2 hmem hub
    have h1 : (b1.map (modelRowOf T1)).filter
        (fun r => decide (r.timestamp = T2)) = [] := by
      rw [List.filter_eq_nil_iff]
      intro r hr
      rcases List.mem_map.mp hr with ⟨m, _, rfl⟩
      simpa [modelRowOf] using hlt.ne
    have h2 : (b2.map (modelRowOf T2)).filter
        (fun r => decide (r.timestamp = T2)) = b2.map (modelRowOf T2) := by
      rw [List.filter_eq_self]
      intro r hr
      rcases List.mem_map.mp hr with ⟨m, _, rfl⟩
      simp [modelRowOf]
    rw [hdb, get_latest_models, hmax]
    show (List.map (modelRowOf T1) b1 ++ List.map (modelRowOf T2) b2).filter
        (fun r => decide (r.timestamp = T2)) = List.map (modelRowOf T2) b2
    rw [List.filter_append, h1, h2, List.nil_append]

/-- Claim C8 witness: two singleton batches at times 1 < 2; the query
returns exactly the time-2 row. -/
theorem latest_models_newest_batch_witness :
    (1 : Int) < 2 ∧ ([modelB] : List ModelInfo) ≠ [] ∧
    get_latest_models (save_models (save_models [] 1 [modelA]) 2 [modelB])
      = [modelRowOf 2 modelB] :=
  ⟨by decide, by decide,
   (latest_models_newest_batch 1 2 [modelA] [modelB] (by decide) (by decide)).2⟩

/-- Claim C2, counterexample: a POST on the proxy route does not forward
the inbound query parameters — the source passes `params=request.args`
only in the GET branch, so the upstream call built for `postReq` carries an
empty parameter list although the inbound request carried `a=1`. -/
theorem proxy_post_drops_query_params :
    (buildUpstreamCall postReq "api/generate").map UpstreamCall.params = some [] ∧
    postReq.args = [("a", "1")] :=
  ⟨rfl, rfl⟩

/-- Claim C2 (amended): a forwarded GET preserves the inbound method, query
parameters and headers (with the `Host` header removed) and carries no
body; and for every supported method, when the upstream answers, the
upstream's status code, body and headers are returned verbatim to the
caller (in particular a GET answered 200 yields status 200 with the exact
upstream body).  POST/PUT/DELETE forward their bodies but not the inbound
query parameters. -/
theorem proxy_get_forwarding (upstream : UpstreamCall → UpstreamResult)
    (req : InRequest) (path : String) (db : List ReqRow) :
    (req.method = .get →
      buildUpstreamCall req path = some
        { method := .get, url := OLLAMA_HOST ++ "/" ++ path,
          headers := dropHostHeader req.headers, params := req.args,
          jsonBody := none, dataBody := none, timeoutSeconds := some 10 }) ∧
    (∀ call s c hs, buildUpstreamCall req path = some call →
      upstream call = .ok s c hs →
      (proxy_ollama upstream req path db).1
        = { status := s, body := .content c, headers := hs }) := by
  constructor
  · intro hm
    simp [buildUpstreamCall, hm]
  · intro call s c hs hc hu
    simp [proxy_ollama, hc, hu]

/-- Claim C2 witness: the concrete GET on `api/tags` against an upstream
answering 200 returns 200 with the exact upstream body and headers. -/
theorem proxy_get_forwarding_witness :
    getReq.method = .get ∧
    (proxy_ollama okUpstream getReq "api/tags" []).1
      = { status := 200, body := .content "TAGSBODY",
          headers := [("Content-Type", "application/json")] } :=
  ⟨rfl, (proxy_get_forwarding okUpstream getReq "api/tags" []).2
          _ 200 "TAGSBODY" _ rfl rfl⟩

/-- Claim C4, counterexample: neither the liveness probe
(`get_server_status`) nor the generation test (`test_model_generation`)
passes a `timeout=` argument to its upstream call — the source calls
`requests.get(...)` / `requests.post(...)` without one, so these
operations are not bounded by an explicit timeout. -/
theorem probe_and_generation_lack_timeout :
    serverStatusCall.timeoutSeconds = none ∧
    (generateCall "llama3").timeoutSeconds = none :=
  ⟨rfl, rfl⟩

/-- Claim C4 (amended): every forwarded proxy call carries an explicit
10-second timeout, while the liveness probe and the generation test issue
their upstream requests without an explicit timeout. -/
theorem proxy_calls_timeout_bounded (req : InRequest) (path : String)
    (call : UpstreamCall) (m : String)
    (h : buildUpstreamCall req path = some call) :
    call.timeoutSeconds = some 10 ∧
    serverStatusCall.timeoutSeconds = none ∧
    (generateCall m).timeoutSeconds = none :=
  ⟨buildUpstreamCall_timeout req path call h, rfl, rfl⟩

/-- Claim C4 witness: the concrete GET forwarded on `api/tags` is built
with `timeout=10`. -/
theorem proxy_calls_timeout_bounded_witness :
    buildUpstreamCall getReq "api/tags" = some tagsCall ∧
    tagsCall.timeoutSeconds = some 10 :=
  ⟨rfl, (proxy_calls_timeout_bounded getReq "api/tags" tagsCall "llama3" rfl).1⟩

/-- Claim C5: when the generation-test upstream call answers 200 reporting
token counts, exactly one request-log row is appended, carrying those
counts, the fixed internal caller address `127.0.0.1`, the measured
latency, the response status and the fixed `/api/generate` endpoint label;
on a non-200 status or a transport error nothing is written. -/
theorem generation_test_logging (dm mn : Option String) (now : Int)
    (elapsed : ℚ) (db : List ReqRow) (i o : Int) (s : Nat)
    (pec ec : Option Int) (d : String)
    (hname : pyFalsy (resolveModelName dm mn) = false) :
    (test_model_generation dm mn (.response 200 (some i) (some o)) now elapsed db).1
      = db ++ [{ timestamp := now, client_ip := "127.0.0.1",
                 model_name := (resolveModelName dm mn).getD "",
                 input_tokens := i, output_tokens := o,
                 response_time := some elapsed, status_code := 200,
                 endpoint := "/api/generate" }] ∧
    (s ≠ 200 →
      (test_model_generation dm mn (.response s pec ec) now elapsed db).1 = db) ∧
    (test_model_generation dm mn (.transportFailure d) now elapsed db).1 = db := by
  refine ⟨?_, ?_, ?_⟩
  · simp [test_model_generation, hname, save_request_log]
  · intro hs
    simp [test_model_generation, hname, hs]
  · simp [test_model_generation, hname]

/-- Claim C5 witness: a concrete successful generation test writes exactly
the one expected row. -/
theorem generation_test_logging_witness :
    pyFalsy (resolveModelName none (some "llama3")) = false ∧
    (test_model_generation none (some "llama3")
        (.response 200 (some 5) (some 7)) 3 1 []).1
      = [{ timestamp := 3, client_ip := "127.0.0.1", model_name := "llama3",
           input_tokens := 5, output_tokens := 7, response_time := some 1,
           status_code := 200, endpoint := "/api/generate" }] :=
  ⟨by decide, (generation_test_logging none (some "llama3") 3 1 [] 5 7 404
                none none "boom" (by decide)).1⟩

/-- Claim C6: the proxy-forwarding route never writes a request-log row —
on success, transport failure, unexpected failure and unsupported method
alike, the `request_logs` relation is returned unchanged. -/
theorem proxy_leaves_request_logs_unchanged
    (upstream : UpstreamCall → UpstreamResult) (req : InRequest)
    (path : String) (db : List ReqRow) :
    (proxy_ollama upstream req path db).2 = db := by
  cases hcall : buildUpstreamCall req path with
  | none => simp [proxy_ollama, hcall]
  | some call => cases hup : upstream call <;> simp [proxy_ollama, hcall, hup]

/-- Claim C7: a transport failure on a forwarded call yields a 502
bad-gateway response carrying the failure detail (never 200), any other
unexpected failure yields a 500, and an unsupported method yields the 405
client error. -/
theorem proxy_error_status_mapping (upstream : UpstreamCall → UpstreamResult)
    (req : InRequest) (path : String) (db : List ReqRow) :
    (∀ call d, buildUpstreamCall req path = some call →
        upstream call = .transportFailure d →
        (proxy_ollama upstream req path db).1
          = { status := 502, body := .errorJson "Upstream API request failed" d,
              headers := [] } ∧
        (proxy_ollama upstream req path db).1.status ≠ 200) ∧
    (∀ call d, buildUpstreamCall req path = some call →
        upstream call = .unexpectedFailure d →
        (proxy_ollama upstream req path db).1
          = { status := 500, body := .errorJson "Unexpected error occurred" d,
              headers := [] }) ∧
    (∀ verb, req.method = .other verb →
        (proxy_ollama upstream req path db).1
          = { status := 405, body := .errorOnly "Method not allowed",
              headers := [] } ∧
        400 ≤ (proxy_ollama upstream req path db).1.status ∧
        (proxy_ollama upstream req path db).1.status < 500) := by
  refine ⟨?_, ?_, ?_⟩
  · intro call d hc hu
    have hres : (proxy_ollama upstream req path db).1
        = { status := 502, body := .errorJson "Upstream API request failed" d,
            headers := [] } := by
      simp [proxy_ollama, hc, hu]
    exact ⟨hres, by rw [hres]; simp⟩
  · intro call d hc hu
    simp [proxy_ollama, hc, hu]
  · intro verb hm
    have hb : buildUpstreamCall req path = none := by
      simp [buildUpstreamCall, hm]
    have hres : (proxy_ollama upstream req path db).1
        = { status := 405, body := .errorOnly "Method not allowed",
            headers := [] } := by
      simp [proxy_ollama, hb]
    exact ⟨hres, by rw [hres]; simp, by rw [hres]; simp⟩

/-- Claim C7 witness: a concrete transport failure gives the 502 error
response, and a concrete PATCH gives the 405 client error. -/
theorem proxy_error_status_mapping_witness :
    (proxy_ollama failingUpstream getReq "api/tags" []).1
      = { status := 502,
          body := .errorJson "Upstream API request failed" "connection refused",
          headers := [] } ∧
    (proxy_ollama failingUpstream patchReq "api/tags" []).1
      = { status := 405, body := .errorOnly "Method not allowed",
          headers := [] } :=
  ⟨((proxy_error_status_mapping failingUpstream getReq "api/tags" []).1
      _ "connection refused" rfl rfl).1,
   ((proxy_error_status_mapping failingUpstream patchReq "api/tags" []).2.2
      "PATCH" rfl).1⟩

/-- Claim C9: when the first matching process denies connection
introspection, the tick records the `-1` sentinel in the sample's
connections field and still persists exactly one row and publishes the
sample; when no process name matches, the composed sample carries empty
process fields (persisted as the `.get(..., 0)` defaults) and the tick
still persists and publishes. -/
theorem sampler_tick_degraded_modes (env : TickEnv) (db : List SysRow) :
    (∀ p, env.procs.find? (fun q => nameMatches q.name) = some p →
      p.accDenied = true →
      (composeTickMetrics env).ollama_process
        = some { pid := p.pid, cpu_percent := p.cpu_percent,
                 memory_percent := p.memory_percent, connections := -1 } ∧
      (sysRowOfMetrics (composeTickMetrics env)).ollama_connections = -1 ∧
      (runTick env db).1 = db ++ [sysRowOfMetrics (composeTickMetrics env)] ∧
      (runTick env db).2 = [composeTickMetrics env]) ∧
    (env.procs.find? (fun q => nameMatches q.name) = none →
      (composeTickMetrics env).ollama_process = none ∧
      (sysRowOfMetrics (composeTickMetrics env)).ollama_cpu_percent = 0 ∧
      (sysRowOfMetrics (composeTickMetrics env)).ollama_memory_percent = 0 ∧
      (sysRowOfMetrics (composeTickMetrics env)).ollama_connections = 0 ∧
      (runTick env db).1 = db ++ [sysRowOfMetrics (composeTickMetrics env)] ∧
      (runTick env db).2 = [composeTickMetrics env]) := by
  constructor
  · intro p hf hd
    have hp : get_ollama_process_info env.procs
        = some { pid := p.pid, cpu_percent := p.cpu_percent,
                 memory_percent := p.memory_percent, connections := -1 } := by
      simp [get_ollama_process_info, hf, hd]
    refine ⟨?_, ?_, rfl, rfl⟩
    · simp [composeTickMetrics, hp]
    · simp [sysRowOfMetrics, composeTickMetrics, hp]
  · intro hf
    have hp : get_ollama_process_info env.procs = none := by
      simp [get_ollama_process_info, hf]
    refine ⟨?_, ?_, ?_, ?_, rfl, rfl⟩
    · simp [composeTickMetrics, hp]
    · simp [sysRowOfMetrics, composeTickMetrics, hp]
    · simp [sysRowOfMetrics, composeTickMetrics, hp]
    · simp [sysRowOfMetrics, composeTickMetrics, hp]

/-- Claim C9 witness: the concrete denied-access tick environment records
the `-1` sentinel. -/
theorem sampler_tick_degraded_modes_witness :
    deniedEnv.procs.find? (fun q => nameMatches q.name) = some deniedProc ∧
    deniedProc.accDenied = true ∧
    (sysRowOfMetrics (composeTickMetrics deniedEnv)).ollama_connections = -1 :=
  ⟨by decide, rfl,
   ((sampler_tick_degraded_modes deniedEnv []).1 deniedProc (by decide) rfl).2.1⟩

/-- Claim C10: when the windowed request-log result set is empty, the
aggregate-stats route returns zero totals, a concrete zero average
response time, and a null most-active endpoint. -/
theorem request_stats_empty_window (now hours : Int) (db : List ReqRow)
    (h : get_recent_requests now hours db = []) :
    api_request_stats now hours db
      = { total_requests := 0, total_input_tokens := 0, total_output_tokens := 0,
          avg_response_time := 0, most_active_endpoint := none } := by
  simp [api_request_stats, h, endpointCounts, pyMaxKey]

/-- Claim C10 witness: the empty table gives an empty window and the
all-zero stats object. -/
theorem request_stats_empty_window_witness :
    get_recent_requests 0 24 [] = [] ∧
    api_request_stats 0 24 []
      = { total_requests := 0, total_input_tokens := 0, total_output_tokens := 0,
          avg_response_time := 0, most_active_endpoint := none } :=
  ⟨rfl, request_stats_empty_window 0 24 [] rfl⟩

end OllamaMonitor
